import Mathlib

/-!
Shallow embedding of the SalonConnect vendor identity-verification (KYC)
pipeline — app/services/kyc_service.py and app/routes/kyc.py — together
with proofs about its decision logic and record lifecycle.

Numbers are modelled as rationals.  Every interaction with an external
provider (OCR, AWS Rekognition, the face_recognition library, DeepFace,
OpenCV, S3) is an environment input giving the outcome of that call;
Except String x stands for a call that either raises (error e) or
returns (ok x).  Database effects are explicit state passing over a
DBState value, with SQLAlchemy commit semantics: mutations made by a
handler are persisted only up to the last db.commit() it executed before
raising.
-/

namespace SalonConnect

/-- Arithmetic mean of a list of rationals (np.mean).  The mean of an empty
list is modelled as 0 (numpy yields NaN there); every use below either
guards emptiness or is decision-irrelevant in that case. -/
def meanQ (l : List ℚ) : ℚ := if l = [] then 0 else l.sum / l.length

/-- Floor of a rational as an integer. -/
def ratFloor (q : ℚ) : ℤ := Int.fdiv q.num q.den

/-- Nearest integer with ties to even, the rounding used by Python round(). -/
def roundHalfEven (q : ℚ) : ℤ :=
  let f := ratFloor q
  let r := q - f
  if r < 1/2 then f
  else if 1/2 < r then f + 1
  else if f % 2 = 0 then f else f + 1

/-- Python round(x, 3), used by compare_faces for its score field. -/
def round3 (q : ℚ) : ℚ := (roundHalfEven (q * 1000) : ℚ) / 1000

theorem ratFloor_intCast (n : ℤ) : ratFloor (n : ℚ) = n := by
  rw [ratFloor, Rat.num_intCast, Rat.den_intCast]
  simp

/-- Rounding to three decimals fixes every rational with at most three
decimals. -/
theorem round3_self (q : ℚ) (n : ℤ) (h : q * 1000 = (n : ℚ)) : round3 q = q := by
  rw [round3, roundHalfEven, h]
  rw [ratFloor_intCast]
  simp only [sub_self]
  rw [if_pos (by norm_num : (0:ℚ) < 1/2)]
  rw [← h]
  field_simp

/-- One text detection returned by the document text-detection provider
(AWS Rekognition detect_text): its Type and Confidence fields. -/
structure TextDetection where
  dtype : String
  confidence : ℚ
deriving DecidableEq

/-- Result dictionary of KYCService.verify_document_authenticity.  The except
branch of the source returns a dictionary with is_valid False and an error
message and no confidence key; absent keys are modelled as none.  The
security_checks and text_detections entries of the normal branch are derived
data and are not modelled separately. -/
structure DocResult where
  is_valid : Bool
  confidence : Option ℚ := none
  error : Option String := none
deriving DecidableEq

/-- Result dictionary of KYCService.compare_faces.  Keys present only on some
return paths are Options (the except branch, for instance, has no
methods_scores, threshold or degraded key). -/
structure FaceResult where
  score : ℚ
  is_match : Bool
  threshold : Option ℚ := none
  methods_scores : Option (List (String × ℚ)) := none
  confidence : Option String := none
  degraded : Option Bool := none
  error : Option String := none
deriving DecidableEq

/-- Result dictionary of KYCService.check_liveness.  The checks and details
entries are derived data and are not modelled separately. -/
structure LivenessResult where
  is_live : Bool
  confidence : String
  error : Option String := none
deriving DecidableEq

/-- Signals computed by OpenCV from the selfie in KYCService.check_liveness:
the number of detected faces, the width faces[0][2] of the first face box,
the Laplacian variance (blur) and the mean brightness. -/
structure LiveSignals where
  facesCount : ℕ
  firstFaceWidth : ℚ
  blur : ℚ
  brightness : ℚ
deriving DecidableEq

/-- Environment of one compare_faces invocation: the availability flags of
the two optional libraries and the outcome of each provider interaction.
frOutcome carries the face_distance when both images had encodings (none
when either had no encodings); dfOutcome carries the distance entry of the
DeepFace result dictionary (none when that key is absent); awsOutcome
carries the Similarity percentage of the first Rekognition FaceMatch (none
when FaceMatches is empty). -/
structure FaceEnv where
  frAvailable : Bool
  dfAvailable : Bool
  download : Except String Unit
  frOutcome : Except String (Option ℚ)
  dfOutcome : Except String (Option ℚ)
  awsOutcome : Except String (Option ℚ)

/-- Result dictionary of KYCService.perform_full_kyc_analysis: the normal
branch carries all component results, the except branch only an error
message, is_approved false and risk_score 1. -/
structure AnalysisResult where
  document_verification : Option DocResult := none
  face_comparison : Option FaceResult := none
  liveness_check : Option LivenessResult := none
  risk_score : ℚ
  is_approved : Bool
  overall_confidence : Option String := none
  recommendations : Option String := none
  error : Option String := none
deriving DecidableEq

/-- The kyc_data dictionary handed to perform_full_kyc_analysis and
calculate_risk_score; an id_number key that is absent from the dictionary
is modelled as none. -/
structure KycData where
  id_front_url : String
  id_back_url : Option String := none
  selfie_url : String
  id_number : Option String := none
deriving DecidableEq

/-- KYCService.verify_document_authenticity as a function of the outcome of
the text-detection provider call (the image downloads and detect_text are
folded into one Except).  is_valid is has_text AND has_printed_text AND
text_confidence > 80; on a raise the result is fail-closed with the error
recorded and no confidence key. -/
def verify_document_authenticity (detect : Except String (List TextDetection)) : DocResult :=
  match detect with
  | .error e => { is_valid := false, error := some e }
  | .ok ds =>
    let has_text := decide (ds.length > 0)
    let has_printed_text := ds.any (fun d => d.dtype == "LINE")
    let text_confidence : ℚ :=
      if ds = [] then 0
      else meanQ ((ds.filter (fun d => d.dtype == "LINE")).map (·.confidence))
    { is_valid := has_text && has_printed_text && decide (text_confidence > 80),
      confidence := some text_confidence }

/-- Per-method score of the face_recognition method: max(0, 1 - distance)
when both images yielded encodings, else 0. -/
def frScore : Option ℚ → ℚ
  | some dist => max 0 (1 - dist)
  | none => 0

/-- Per-method score of DeepFace: 1 - result.get(distance, 1). -/
def dfScore (o : Option ℚ) : ℚ := 1 - o.getD 1

/-- Per-method score of AWS Rekognition compare_faces: Similarity/100 of the
first match, 0 when there is no FaceMatch. -/
def awsScore : Option ℚ → ℚ
  | some sim => sim / 100
  | none => 0

/-- First early return of compare_faces, taken when neither optional face
library is importable. -/
def librariesUnavailableResult : FaceResult :=
  { score := 0, is_match := false,
    error := some "Face comparison libraries are not available in this deployment",
    methods_scores := some [], degraded := some true }

/-- Return value of the except branch of compare_faces, produced by a raise
anywhere in its body (the source dictionary also carries a method key with
value combined, not modelled). -/
def faceExceptionResult (e : String) : FaceResult :=
  { score := 0, is_match := false, error := some e }

/-- Aggregation stage of compare_faces (method 3 onwards): AWS Rekognition is
always invoked, its score joins the accumulated methods_scores, and the mean
of the available scores is compared against the configured threshold.
Settings has no FACE_MATCHING_THRESHOLD attribute (its model ignores extra
environment keys), so the getattr default 0.75 always applies.  The filter
dropping None scores is the identity here because no method ever records a
None score in the source either. -/
def compareFacesAws (env : FaceEnv) (ms : List (String × ℚ)) (calls : List String) :
    FaceResult × List String :=
  match env.awsOutcome with
  | .error e => (faceExceptionResult e, calls ++ ["aws_rekognition"])
  | .ok m =>
    let methods_scores := ms ++ [("aws_rekognition", awsScore m)]
    let calls2 := calls ++ ["aws_rekognition"]
    let available_scores := methods_scores.map (·.2)
    let threshold : ℚ := 3/4
    if available_scores = [] then
      ({ score := 0, is_match := false,
         error := some "No face comparison methods available",
         methods_scores := some methods_scores, degraded := some true }, calls2)
    else
      let final := meanQ available_scores
      let final_is_match := decide (final ≥ threshold)
      ({ score := round3 final,
         is_match := final_is_match,
         threshold := some threshold,
         methods_scores := some methods_scores,
         confidence := some (if final_is_match && decide (final > 17/20) then "high" else "medium"),
         degraded := some (!env.frAvailable || !env.dfAvailable) }, calls2)

/-- Method 2 of compare_faces: DeepFace, invoked only when available; a raise
aborts the whole pool with the except result. -/
def compareFacesDf (env : FaceEnv) (ms : List (String × ℚ)) (calls : List String) :
    FaceResult × List String :=
  if env.dfAvailable then
    match env.dfOutcome with
    | .error e => (faceExceptionResult e, calls ++ ["deepface"])
    | .ok d => compareFacesAws env (ms ++ [("deepface", dfScore d)]) (calls ++ ["deepface"])
  else compareFacesAws env ms calls

/-- Method 1 of compare_faces: the face_recognition library, invoked only
when available; a raise aborts the whole pool with the except result. -/
def compareFacesFr (env : FaceEnv) : FaceResult × List String :=
  if env.frAvailable then
    match env.frOutcome with
    | .error e => (faceExceptionResult e, ["face_recognition"])
    | .ok d => compareFacesDf env [("face_recognition", frScore d)] ["face_recognition"]
  else compareFacesDf env [] []

/-- KYCService.compare_faces.  Returns the result dictionary together with
the list of comparator methods actually invoked (instrumentation used to
count biometric provider calls).  Control flow follows the source: an early
return when both optional libraries are missing, then the image downloads,
then the three methods in order, all inside one try block, so a raise at any
point yields the except result for the whole pool. -/
def compare_faces (env : FaceEnv) : FaceResult × List String :=
  if !(env.frAvailable || env.dfAvailable) then
    (librariesUnavailableResult, [])
  else
    match env.download with
    | .error e => (faceExceptionResult e, [])
    | .ok _ => compareFacesFr env

/-- KYCService.check_liveness: an early degraded return when OpenCV is not
importable, the except result on a raise, otherwise the conjunction of the
four boolean checks. -/
def check_liveness (cv2Available : Bool) (outcome : Except String LiveSignals) :
    LivenessResult :=
  if !cv2Available then
    { is_live := false, confidence := "unknown",
      error := some "OpenCV is not available in this deployment" }
  else
    match outcome with
    | .error e => { is_live := false, confidence := "unknown", error := some e }
    | .ok s =>
      let single_face := s.facesCount == 1
      let image_quality := decide (s.blur > 100)
      let brightness_ok := decide (50 < s.brightness) && decide (s.brightness < 200)
      let face_size_ok := decide (s.facesCount > 0) && decide (s.firstFaceWidth > 100)
      let is_live := single_face && image_quality && brightness_ok && face_size_ok
      { is_live := is_live, confidence := if is_live then "high" else "low" }

/-- The risk_factors list built by KYCService.calculate_risk_score, in source
order: document risk, face-match risk, liveness risk, id-number pattern risk.
Dictionary lookups with defaults are modelled with getD. -/
def risk_factors (doc : DocResult) (face : FaceResult) (live : LivenessResult)
    (kd : KycData) : List ℚ :=
  (if !doc.is_valid then [1/2]
   else if doc.confidence.getD 0 < 70 then [3/10] else [])
  ++ (if !face.is_match then [3/5]
      else if face.score < 4/5 then [1/5] else [])
  ++ (if !live.is_live then [7/10] else [])
  ++ (if kd.id_number.getD "" = "" ∨ (kd.id_number.getD "").length < 6 then [2/5] else [])

/-- KYCService.calculate_risk_score: np.mean of the triggered factors, or the
0.1 floor when no factor triggered. -/
def calculate_risk_score (doc : DocResult) (face : FaceResult) (live : LivenessResult)
    (kd : KycData) : ℚ :=
  let fs := risk_factors doc face live kd
  if fs = [] then 1/10 else meanQ fs

/-- KYCService.calculate_confidence.  The scores list always contains at
least the face score, so the empty-mean guard of the source never fires. -/
def calculate_confidence (doc : DocResult) (face : FaceResult) (live : LivenessResult) :
    String :=
  let scores := (if doc.is_valid then [doc.confidence.getD 0 / 100] else [])
    ++ [face.score]
    ++ [if live.is_live then (9:ℚ)/10 else 3/10]
  let avg := meanQ scores
  if avg > 4/5 then "high" else if avg > 3/5 then "medium" else "low"

/-- KYCService.generate_recommendations: the ordered concatenation of the
explanations of every failing signal, joined with a semicolon, or the
all-checks-passed text when none failed and the analysis approved. -/
def generate_recommendations (doc : DocResult) (face : FaceResult)
    (live : LivenessResult) (is_approved : Bool) : String :=
  let recs :=
    (if !doc.is_valid then
      ["Document appears invalid. Please upload a clear photo of a valid government ID."]
     else [])
    ++ (if !face.is_match then
      ["Face doesn\x27t match ID photo. Please ensure you\x27re using your own ID."]
       else [])
    ++ (if !live.is_live then
      ["Selfie doesn\x27t appear to be live. Please take a fresh selfie without glasses or masks."]
       else [])
    ++ (if face.score < 7/10 then
      ["Low face match confidence. Try taking photos in better lighting."]
       else [])
  if recs.isEmpty && is_approved then "All checks passed. Ready for approval."
  else String.intercalate "; " recs

/-- Environment of one perform_full_kyc_analysis invocation.  analysisCrash
models an unexpected exception escaping one of the steps (the components
catch their own provider errors, so in practice this stands for failures the
source did not anticipate); when set, the except branch of the source
returns its error dictionary. -/
structure KycEnv where
  detectText : Except String (List TextDetection)
  face : FaceEnv
  cv2Available : Bool
  liveOutcome : Except String LiveSignals
  analysisCrash : Option String := none

/-- KYCService.perform_full_kyc_analysis: document authenticity, face
matching, liveness, risk, and the final decision
is_approved = is_valid AND is_match AND is_live AND risk_score <= 0.5.
Also returns the list of biometric comparator methods invoked. -/
def perform_full_kyc_analysis (env : KycEnv) (kd : KycData) : AnalysisResult × List String :=
  match env.analysisCrash with
  | some e => ({ error := some e, is_approved := false, risk_score := 1 }, [])
  | none =>
    let doc := verify_document_authenticity env.detectText
    let fc := compare_faces env.face
    let face := fc.1
    let live := check_liveness env.cv2Available env.liveOutcome
    let risk := calculate_risk_score doc face live kd
    let is_approved := doc.is_valid && face.is_match && live.is_live && decide (risk ≤ 1/2)
    ({ document_verification := some doc,
       face_comparison := some face,
       liveness_check := some live,
       risk_score := risk,
       is_approved := is_approved,
       overall_confidence := some (calculate_confidence doc face live),
       recommendations := some (generate_recommendations doc face live is_approved) }, fc.2)

/-- The structured fields extracted by KYCService.extract_document_data from
the OCR text (id_number, full_name, date_of_birth plus the raw text and the
FileParseExitCode confidence).  The regex parsing itself is a provider-level
heuristic and is folded into the upload environment. -/
structure ExtractedData where
  raw_text : String
  id_number : Option String := none
  full_name : Option String := none
  date_of_birth : Option String := none
  confidence : ℚ := 0
deriving DecidableEq

/-- One row of the users table (app/models/user.py), restricted to the
columns the KYC pipeline reads, plus the three trial attributes assigned by
submit_kyc.  Those three are NOT mapped columns of the User model, so
assigning them only creates transient Python attributes; they are modelled
as Options that no operation of this file ever persists. -/
structure UserRec where
  id : ℕ
  email : String
  first_name : String
  role : String
  is_active : Bool := true
  kyc_verified : Option Bool := none
  subscription_plan : Option String := none
  subscription_expires_at : Option ℚ := none
deriving DecidableEq

/-- One row of the vendor_kyc table as mapped by app/models/kyc.py (the
VendorKYC class the routes import).  Nullable columns are Options;
is_document_valid, is_live_selfie, risk_score and status carry the column
defaults at insert time.  Timestamps are opaque strings (never read by the
pipeline). -/
structure KycRecord where
  id : ℕ
  vendor_id : ℕ
  id_type : Option String := none
  id_number : Option String := none
  full_name : Option String := none
  date_of_birth : Option String := none
  id_front_url : Option String := none
  id_back_url : Option String := none
  selfie_url : Option String := none
  face_match_score : Option ℚ := none
  face_match_status : Option String := none
  document_verification_status : Option String := none
  ocr_extracted_data : Option ExtractedData := none
  is_document_valid : Option Bool := some false
  is_live_selfie : Option Bool := some false
  risk_score : Option ℚ := some 0
  ai_analysis : Option AnalysisResult := none
  status : String := "pending"
  rejection_reason : Option String := none
  reviewed_by : Option ℕ := none
  reviewed_at : Option String := none
deriving DecidableEq

/-- One row of the kyc_audit_logs table.  Both KYC endpoints crash while
building their audit row (see upload_document and submit_kyc below), so no
operation of this file ever appends one; the field is kept so the state
shape matches the schema. -/
structure AuditEntry where
  kyc_id : ℕ
  action : String
  performed_by : Option ℕ := none
deriving DecidableEq

/-- The persisted database state visible to the KYC pipeline. -/
structure DBState where
  users : List UserRec
  kycs : List KycRecord
  audits : List AuditEntry
deriving DecidableEq

/-- The KYCVerificationRequest body (app/schemas/kyc.py).  id_type is the
string value of the IDType enum; date_of_birth has already passed the
pydantic YYYY-MM-DD validator, so the strptime call in the handler cannot
raise for a request that reached it. -/
structure KYCVerificationRequest where
  id_type : String
  id_number : String
  full_name : String
  date_of_birth : String
  id_front_url : String
  id_back_url : Option String := none
  selfie_url : String
deriving DecidableEq

/-- Environment of one upload_document invocation: the outcome of the S3
upload (a presigned URL, or a raise) and the outcome of
extract_document_data (which catches all its own exceptions and returns an
empty dictionary, modelled as none, on any failure). -/
structure UploadEnv where
  uploadOutcome : Except String String
  extractOutcome : Option ExtractedData := none

/-- Response of a KYC endpoint: the JSON body of upload_document, the
KYCResponse of submit_kyc, or an HTTPException status code and detail.  Both
handlers wrap every inner exception — including the HTTPExceptions they
raise themselves — in a 500; the detail strings below abbreviate the
str(exception) text interpolated by the source. -/
inductive ApiResult where
  | okUpload (url : String) (extracted : Option ExtractedData)
  | okSubmit (record : KycRecord)
  | httpError (code : ℕ) (detail : String)
deriving DecidableEq

/-- Python str.startswith, modelled over the character lists of the two
strings (observationally the built-in prefix test). -/
def startswith (s p : String) : Bool := p.data.isPrefixOf s.data

/-- db.query(User).filter(User.id == user_id).first() of get_current_user. -/
def findUser (S : DBState) (uid : ℕ) : Option UserRec :=
  S.users.find? (fun u => u.id == uid)

/-- db.query(VendorKYC).filter(VendorKYC.vendor_id == user.id).first(). -/
def findKyc (S : DBState) (uid : ℕ) : Option KycRecord :=
  S.kycs.find? (fun r => r.vendor_id == uid)

/-- The already-submitted query of submit_kyc: the vendor record whose
status is in (processing, approved). -/
def findActiveKyc (S : DBState) (uid : ℕ) : Option KycRecord :=
  S.kycs.find? (fun r => r.vendor_id == uid &&
    (r.status == "processing" || r.status == "approved"))

/-- Primary key assigned to a freshly inserted vendor_kyc row. -/
def freshId (S : DBState) : ℕ :=
  S.kycs.foldr (fun r m => max r.id m) 0 + 1

/-- VendorKYC(vendor_id=current_user.id): a fresh row with column defaults. -/
def newKycRecord (rid vendorId : ℕ) : KycRecord :=
  { id := rid, vendor_id := vendorId }

/-- Commit of a mutated vendor_kyc row: replace the requesting vendor's row
when it pre-existed (found), else insert the fresh row. -/
def putRecord (S : DBState) (uid : ℕ) (found : Bool) (r : KycRecord) : DBState :=
  if found then
    { S with kycs := S.kycs.map (fun x => if x.vendor_id == uid then r else x) }
  else
    { S with kycs := S.kycs ++ [r] }

/-- Document-URL update of upload_document (one of the three known doc_type
values updates its column; any other doc_type changes nothing). -/
def uploadUrlUpdate (rec : KycRecord) (docType url : String) : KycRecord :=
  if docType == "front" then { rec with id_front_url := some url }
  else if docType == "back" then { rec with id_back_url := some url }
  else if docType == "selfie" then { rec with selfie_url := some url }
  else rec

/-- Main branch of upload_document (S3 upload succeeded with the given URL):
optional OCR extraction for the front image, create-or-fetch of the vendor
record, document-URL and OCR-data update, first db.commit().  The audit
block then evaluates the undefined name request (the handler has no request
parameter), so a NameError is raised, no audit row is written, and the outer
except answers 500 — with the document update already committed. -/
def uploadProcess (S : DBState) (uid : ℕ) (docType url : String)
    (env : UploadEnv) : DBState × ApiResult :=
  let extracted := if docType == "front" then env.extractOutcome else none
  let found := findKyc S uid
  let rec0 := match found with
    | some r => r
    | none => newKycRecord (freshId S) uid
  let rec1 := uploadUrlUpdate rec0 docType url
  let rec2 := if extracted.isSome then { rec1 with ocr_extracted_data := extracted }
    else rec1
  (putRecord S uid found.isSome rec2,
   .httpError 500 "Upload failed: name request is not defined")

/-- POST /kyc/upload-document (routes/kyc.py upload_document), as a function
of the authenticated caller, the uploaded file content type, doc_type, and
the provider environment. -/
def upload_document (S : DBState) (uid : ℕ) (contentType docType : String)
    (env : UploadEnv) : DBState × ApiResult :=
  match findUser S uid with
  | none => (S, .httpError 401 "User not found")
  | some u =>
    if !u.is_active then (S, .httpError 401 "Account is deactivated")
    else if u.role != "vendor" then
      (S, .httpError 500 "Upload failed: Only vendors can upload KYC documents")
    else if !(startswith contentType "image/") then
      (S, .httpError 500 "Upload failed: File must be an image")
    else
      match env.uploadOutcome with
      | .error e => (S, .httpError 500 ("Upload failed: " ++ e))
      | .ok url => uploadProcess S uid docType url env

/-- The analysis_data dictionary built by submit_kyc (lines 161-165): only
the three image URLs — in particular no id_number key. -/
def submitAnalysisData (req : KYCVerificationRequest) : KycData :=
  { id_front_url := req.id_front_url,
    id_back_url := req.id_back_url,
    selfie_url := req.selfie_url }

/-- The submitted-data update of submit_kyc (lines 151-158), including the
in-memory transition to status processing (overwritten with the final status
before the first commit, so processing itself is never persisted). -/
def submitRecordUpdate (rec : KycRecord) (req : KYCVerificationRequest) : KycRecord :=
  { rec with
    id_type := some req.id_type,
    id_number := some req.id_number,
    full_name := some req.full_name,
    date_of_birth := some req.date_of_birth,
    id_front_url := some req.id_front_url,
    id_back_url := req.id_back_url,
    selfie_url := some req.selfie_url,
    status := "processing" }

/-- The analysis-results update of submit_kyc (lines 170-176).  Lookups with
analysis.get(key, default) on possibly-absent dictionaries are modelled with
Option.map and getD; the Python truthiness of a missing is_match or is_valid
is getD false. -/
def applyAnalysis (rec : KycRecord) (a : AnalysisResult) : KycRecord :=
  { rec with
    face_match_score := a.face_comparison.map (·.score),
    face_match_status :=
      some (if (a.face_comparison.map (·.is_match)).getD false then "verified" else "failed"),
    document_verification_status :=
      some (if (a.document_verification.map (·.is_valid)).getD false then "verified" else "failed"),
    is_document_valid := a.document_verification.map (·.is_valid),
    is_live_selfie := a.liveness_check.map (·.is_live),
    risk_score := some a.risk_score,
    ai_analysis := some a }

/-- Main branch of submit_kyc (no processing or approved record yet):
create-or-fetch of the vendor record, the submitted-data update, the full
analysis, the analysis-results update, then the decision.

Approval branch: status is set to approved and the trial attributes are set
on the in-memory user, but the branch then evaluates the undefined name
timedelta (routes/kyc.py never defines it; the star re-exported names of
app.schemas.kyc include datetime but not timedelta), raising NameError
before db.commit() — and the trial-email call after it would raise TypeError
anyway, because send_trial_started_email(user, expiry_date) is invoked with
keyword arguments email, first_name, expiry_date.  The outer except answers
500 and the session is closed without commit, so nothing is persisted.

Rejection branch: the first db.commit() persists the rejected record; the
audit block then evaluates request.client.host on the pydantic request model
(AttributeError), so no audit row is written and the endpoint answers 500
with the rejection already committed. -/
def submitProcess (S : DBState) (uid : ℕ) (req : KYCVerificationRequest) (env : KycEnv) :
    DBState × ApiResult × List String :=
  let found := findKyc S uid
  let rec0 := match found with
    | some r => r
    | none => newKycRecord (freshId S) uid
  let rec1 := submitRecordUpdate rec0 req
  let ac := perform_full_kyc_analysis env (submitAnalysisData req)
  let rec2 := applyAnalysis rec1 ac.1
  if ac.1.is_approved then
    (S, .httpError 500 "KYC submission failed: name timedelta is not defined", ac.2)
  else
    let rec3 := { rec2 with
      status := "rejected",
      rejection_reason := some (ac.1.recommendations.getD "KYC verification failed") }
    (putRecord S uid found.isSome rec3,
     .httpError 500
       "KYC submission failed: KYCVerificationRequest object has no attribute client",
     ac.2)

/-- POST /kyc/submit (routes/kyc.py submit_kyc), returning the persisted
state, the HTTP response, and the list of biometric comparator methods
invoked while handling the request. -/
def submit_kyc (S : DBState) (uid : ℕ) (req : KYCVerificationRequest) (env : KycEnv) :
    DBState × ApiResult × List String :=
  match findUser S uid with
  | none => (S, .httpError 401 "User not found", [])
  | some u =>
    if !u.is_active then (S, .httpError 401 "Account is deactivated", [])
    else if u.role != "vendor" then
      (S, .httpError 500 "KYC submission failed: Only vendors can submit KYC", [])
    else
      match findActiveKyc S uid with
      | some ex =>
        if ex.status == "approved" then
          (S, .httpError 500 "KYC submission failed: KYC already approved", [])
        else
          (S, .httpError 500 "KYC submission failed: KYC is already being processed", [])
      | none => submitProcess S uid req env

/-- One operation of the KYC pipeline as exposed by the routes. -/
inductive Op where
  | upload (uid : ℕ) (contentType docType : String) (env : UploadEnv)
  | submit (uid : ℕ) (req : KYCVerificationRequest) (env : KycEnv)

/-- Persisted-state effect of one operation. -/
def step (S : DBState) : Op → DBState
  | .upload uid ct dt env => (upload_document S uid ct dt env).1
  | .submit uid req env => (submit_kyc S uid req env).1

/-- Persisted-state effect of a sequence of operations. -/
def runOps (S : DBState) (ops : List Op) : DBState :=
  ops.foldl step S

/-- Risk column at most the approval threshold 0.5 (absent counts as a
violation). -/
def riskLe : Option ℚ → Prop
  | some q => q ≤ 1/2
  | none => False

instance : (o : Option ℚ) → Decidable (riskLe o)
  | some q => inferInstanceAs (Decidable (q ≤ 1/2))
  | none => inferInstanceAs (Decidable False)

/-- Approval invariant of one vendor_kyc row: an approved row has
face_match_status verified, a valid document, a live selfie, and a risk
score at most 0.5. -/
def approvedInv (r : KycRecord) : Prop :=
  r.status = "approved" →
    r.face_match_status = some "verified" ∧
    r.is_document_valid = some true ∧
    r.is_live_selfie = some true ∧
    riskLe r.risk_score

instance (r : KycRecord) : Decidable (approvedInv r) := by
  unfold approvedInv; infer_instance

/-- Approval invariant over every row of the state. -/
def StateInv (S : DBState) : Prop := ∀ r ∈ S.kycs, approvedInv r

instance (S : DBState) : Decidable (StateInv S) :=
  List.decidableBAll _ _

/-- An all-pass provider environment: one high-confidence printed text line,
face_recognition distance 0 and Rekognition similarity 90 (DeepFace not
installed), and clean selfie signals. -/
def envPass : KycEnv :=
  { detectText := .ok [{ dtype := "LINE", confidence := 90 }],
    face :=
      { frAvailable := true, dfAvailable := false, download := .ok (),
        frOutcome := .ok (some 0), dfOutcome := .ok none,
        awsOutcome := .ok (some 90) },
    cv2Available := true,
    liveOutcome := .ok { facesCount := 1, firstFaceWidth := 150, blur := 200, brightness := 100 } }

/-- A minimal analysis-input dictionary (three image URLs, nothing else). -/
def kdPass : KycData := { id_front_url := "https://img/front", selfie_url := "https://img/selfie" }

/-- Claim C3.  For every provider environment (hence every set of component
results) in which the analysis runs to completion, the final decision
is_approved holds exactly when the authenticity result is valid, the
biometric result is a match, the liveness result is live, and the computed
risk score is at most 0.5. -/
theorem approval_decision_iff (env : KycEnv) (kd : KycData)
    (h : env.analysisCrash = none) :
    (perform_full_kyc_analysis env kd).1.is_approved = true ↔
      ((verify_document_authenticity env.detectText).is_valid = true ∧
       (compare_faces env.face).1.is_match = true ∧
       (check_liveness env.cv2Available env.liveOutcome).is_live = true ∧
       (perform_full_kyc_analysis env kd).1.risk_score ≤ 1/2) := by
  unfold perform_full_kyc_analysis
  rw [h]
  simp [Bool.and_eq_true, decide_eq_true_eq, and_assoc]

/-- Evaluation of the comparator pool on the all-pass environment: scores 1
and 0.9, mean 0.95, match. -/
theorem compare_faces_envPass :
    compare_faces envPass.face =
      ({ score := 19/20, is_match := true, threshold := some (3/4),
         methods_scores := some [("face_recognition", 1), ("aws_rekognition", 9/10)],
         confidence := some "high", degraded := some true },
       ["face_recognition", "aws_rekognition"]) := by
  have hr : round3 (19/20) = 19/20 := round3_self _ 950 (by norm_num)
  have hne : ([1, (9:ℚ)/10] = []) = False := by simp
  norm_num [compare_faces, compareFacesFr, compareFacesDf, compareFacesAws, envPass,
    frScore, awsScore, meanQ, hr, hne]

/-- Evaluation of the authenticity checker on the all-pass environment. -/
theorem doc_envPass :
    verify_document_authenticity envPass.detectText =
      { is_valid := true, confidence := some 90 } := by
  norm_num [verify_document_authenticity, meanQ,
    show envPass.detectText = Except.ok [{ dtype := "LINE", confidence := (90:ℚ) }] from rfl]

/-- Evaluation of the liveness analyzer on the all-pass environment. -/
theorem live_envPass :
    check_liveness envPass.cv2Available envPass.liveOutcome =
      { is_live := true, confidence := "high" } := by
  norm_num [check_liveness,
    show envPass.cv2Available = true from rfl,
    show envPass.liveOutcome = Except.ok
      { facesCount := 1, firstFaceWidth := 150, blur := 200, brightness := 100 } from rfl]

theorem approval_decision_iff_witness :
    (verify_document_authenticity envPass.detectText).is_valid = true ∧
    (compare_faces envPass.face).1.is_match = true ∧
    (check_liveness envPass.cv2Available envPass.liveOutcome).is_live = true ∧
    (perform_full_kyc_analysis envPass kdPass).1.risk_score ≤ 1/2 :=
  (approval_decision_iff envPass kdPass rfl).mp (by
    norm_num [perform_full_kyc_analysis, compare_faces_envPass, doc_envPass, live_envPass,
      calculate_risk_score, risk_factors, meanQ, kdPass,
      show envPass.analysisCrash = none from rfl])

/-- Transcription of the risk formula as the specification states it: the
mean of exactly the triggered penalty terms — 0.5 for authenticity invalid,
else 0.3 if authenticity confidence < 70; 0.6 for biometric no-match, else
0.2 if the match score < 0.8; 0.7 for liveness failure; 0.4 for an ID number
missing or shorter than 6 characters — with floor 0.1 when no term
triggers. -/
def riskScoreSpec (doc : DocResult) (face : FaceResult) (live : LivenessResult)
    (kd : KycData) : ℚ :=
  let terms :=
    (if doc.is_valid = false then [(1:ℚ)/2]
     else if doc.confidence.getD 0 < 70 then [3/10] else [])
    ++ (if face.is_match = false then [3/5]
        else if face.score < 4/5 then [1/5] else [])
    ++ (if live.is_live = false then [7/10] else [])
    ++ (if (kd.id_number.getD "").length < 6 then [2/5] else [])
  if terms = [] then 1/10 else terms.sum / (terms.length : ℚ)

/-- Claim C4.  calculate_risk_score computes exactly the specified mean of
the triggered penalty terms (the source's redundant emptiness test on the id
number collapses into the length test), and with authenticity invalid as the
only triggered term the risk score is exactly 0.5. -/
theorem risk_score_formula (doc : DocResult) (face : FaceResult)
    (live : LivenessResult) (kd : KycData) :
    calculate_risk_score doc face live kd = riskScoreSpec doc face live kd ∧
    (doc.is_valid = false → face.is_match = true → (4:ℚ)/5 ≤ face.score →
      live.is_live = true → 6 ≤ (kd.id_number.getD "").length →
      calculate_risk_score doc face live kd = 1/2) := by
  have hlast : (if kd.id_number.getD "" = "" ∨ (kd.id_number.getD "").length < 6
      then [(2:ℚ)/5] else [])
      = (if (kd.id_number.getD "").length < 6 then [(2:ℚ)/5] else []) := by
    by_cases hq : (kd.id_number.getD "").length < 6
    · simp [hq]
    · have hne : ¬(kd.id_number.getD "" = "") := by
        intro h; exact hq (by rw [h]; decide)
      simp [hq, hne]
  constructor
  · unfold calculate_risk_score riskScoreSpec risk_factors
    rw [hlast]
    cases hdv : doc.is_valid <;> cases hfm : face.is_match <;> cases hll : live.is_live
    all_goals simp [hdv, hfm, hll, meanQ]
    all_goals split
    all_goals simp_all [meanQ]
  · intro h1 h2 h3 h4 h5
    have hnlt : ¬((kd.id_number.getD "").length < 6) := by omega
    have hne : ¬(kd.id_number.getD "" = "") := by
      intro h; rw [h] at h5; simp at h5
    have hns : ¬(face.score < 4/5) := not_lt.mpr h3
    unfold calculate_risk_score risk_factors
    simp [h1, h2, h4, hns, hnlt, hne, meanQ]

/-- Concrete instantiation of the risk-formula theorem: an invalid document
with a matching face (score 0.9), live selfie, and a long-enough ID number
scores exactly 0.5. -/
theorem risk_score_formula_witness :
    calculate_risk_score { is_valid := false }
      { score := 9/10, is_match := true }
      { is_live := true, confidence := "high" }
      { id_front_url := "f", selfie_url := "s", id_number := some "GHA-123456789-0" }
      = 1/2 :=
  (risk_score_formula { is_valid := false }
      { score := 9/10, is_match := true }
      { is_live := true, confidence := "high" }
      { id_front_url := "f", selfie_url := "s", id_number := some "GHA-123456789-0" }).2
    (by decide) (by decide) (by norm_num) (by decide) (by decide)

/-- A scored pool result: the methods_scores list is present and non-empty,
the reported score is the 3-decimal rounding of the plain arithmetic mean of
the obtained per-method scores, and isMatch holds exactly when that mean
reaches the 0.75 threshold. -/
def meanScoredResult (p : FaceResult × List String) : Prop :=
  ∃ ms : List (String × ℚ), p.1.methods_scores = some ms ∧ ms ≠ [] ∧
    p.1.score = round3 (meanQ (ms.map (·.2))) ∧
    (p.1.is_match = true ↔ 3/4 ≤ meanQ (ms.map (·.2)))

theorem compareFacesAws_error (env : FaceEnv) (ms : List (String × ℚ))
    (calls : List String) (e : String) (h : env.awsOutcome = .error e) :
    compareFacesAws env ms calls = (faceExceptionResult e, calls ++ ["aws_rekognition"]) := by
  unfold compareFacesAws; rw [h]

theorem compareFacesAws_ok (env : FaceEnv) (ms : List (String × ℚ))
    (calls : List String) (m : Option ℚ) (h : env.awsOutcome = .ok m) :
    compareFacesAws env ms calls =
      ({ score := round3 (meanQ ((ms ++ [("aws_rekognition", awsScore m)]).map (fun x => x.2))),
         is_match :=
           decide (meanQ ((ms ++ [("aws_rekognition", awsScore m)]).map (fun x => x.2)) ≥ 3/4),
         threshold := some (3/4),
         methods_scores := some (ms ++ [("aws_rekognition", awsScore m)]),
         confidence := some (if
           decide (meanQ ((ms ++ [("aws_rekognition", awsScore m)]).map (fun x => x.2)) ≥ 3/4) &&
           decide (meanQ ((ms ++ [("aws_rekognition", awsScore m)]).map (fun x => x.2)) > 17/20)
           then "high" else "medium"),
         degraded := some (!env.frAvailable || !env.dfAvailable) },
       calls ++ ["aws_rekognition"]) := by
  have hne : ¬((ms ++ [("aws_rekognition", awsScore m)]).map (fun x => x.2) = []) := by simp
  unfold compareFacesAws; rw [h]
  simp only [if_neg hne]

theorem compareFacesAws_shape (env : FaceEnv) (ms : List (String × ℚ)) (calls : List String) :
    (∃ e, (compareFacesAws env ms calls).1 = faceExceptionResult e)
    ∨ ((compareFacesAws env ms calls).1.error = none ∧
       (compareFacesAws env ms calls).1.degraded = some (!env.frAvailable || !env.dfAvailable) ∧
       meanScoredResult (compareFacesAws env ms calls)) := by
  cases haws : env.awsOutcome with
  | error e => rw [compareFacesAws_error env ms calls e haws]; exact Or.inl ⟨e, rfl⟩
  | ok m =>
    rw [compareFacesAws_ok env ms calls m haws]
    refine Or.inr ⟨rfl, rfl, ms ++ [("aws_rekognition", awsScore m)], rfl, by simp, rfl, ?_⟩
    simp [decide_eq_true_eq, ge_iff_le]

theorem compareFacesDf_unavail (env : FaceEnv) (ms : List (String × ℚ))
    (calls : List String) (h : env.dfAvailable = false) :
    compareFacesDf env ms calls = compareFacesAws env ms calls := by
  unfold compareFacesDf; rw [h]; rfl

theorem compareFacesDf_error (env : FaceEnv) (ms : List (String × ℚ))
    (calls : List String) (e : String) (h1 : env.dfAvailable = true)
    (h2 : env.dfOutcome = .error e) :
    compareFacesDf env ms calls = (faceExceptionResult e, calls ++ ["deepface"]) := by
  unfold compareFacesDf; rw [h1, h2]; rfl

theorem compareFacesDf_ok (env : FaceEnv) (ms : List (String × ℚ))
    (calls : List String) (d : Option ℚ) (h1 : env.dfAvailable = true)
    (h2 : env.dfOutcome = .ok d) :
    compareFacesDf env ms calls =
      compareFacesAws env (ms ++ [("deepface", dfScore d)]) (calls ++ ["deepface"]) := by
  unfold compareFacesDf; rw [h1, h2]; rfl

theorem compareFacesDf_shape (env : FaceEnv) (ms : List (String × ℚ)) (calls : List String) :
    (∃ e, (compareFacesDf env ms calls).1 = faceExceptionResult e)
    ∨ ((compareFacesDf env ms calls).1.error = none ∧
       (compareFacesDf env ms calls).1.degraded = some (!env.frAvailable || !env.dfAvailable) ∧
       meanScoredResult (compareFacesDf env ms calls)) := by
  cases hdf : env.dfAvailable with
  | false =>
    rw [compareFacesDf_unavail env ms calls hdf]
    have h := compareFacesAws_shape env ms calls
    rw [hdf] at h
    exact h
  | true =>
    cases hout : env.dfOutcome with
    | error e => rw [compareFacesDf_error env ms calls e hdf hout]; exact Or.inl ⟨e, rfl⟩
    | ok d =>
      rw [compareFacesDf_ok env ms calls d hdf hout]
      have h := compareFacesAws_shape env (ms ++ [("deepface", dfScore d)]) (calls ++ ["deepface"])
      rw [hdf] at h
      exact h

theorem compareFacesFr_unavail (env : FaceEnv) (h : env.frAvailable = false) :
    compareFacesFr env = compareFacesDf env [] [] := by
  unfold compareFacesFr; rw [h]; rfl

theorem compareFacesFr_error (env : FaceEnv) (e : String) (h1 : env.frAvailable = true)
    (h2 : env.frOutcome = .error e) :
    compareFacesFr env = (faceExceptionResult e, ["face_recognition"]) := by
  unfold compareFacesFr; rw [h1, h2]; rfl

theorem compareFacesFr_ok (env : FaceEnv) (d : Option ℚ) (h1 : env.frAvailable = true)
    (h2 : env.frOutcome = .ok d) :
    compareFacesFr env =
      compareFacesDf env [("face_recognition", frScore d)] ["face_recognition"] := by
  unfold compareFacesFr; rw [h1, h2]; rfl

theorem compareFacesFr_shape (env : FaceEnv) :
    (∃ e, (compareFacesFr env).1 = faceExceptionResult e)
    ∨ ((compareFacesFr env).1.error = none ∧
       (compareFacesFr env).1.degraded = some (!env.frAvailable || !env.dfAvailable) ∧
       meanScoredResult (compareFacesFr env)) := by
  cases hfr : env.frAvailable with
  | false =>
    rw [compareFacesFr_unavail env hfr]
    have h := compareFacesDf_shape env [] []
    rw [hfr] at h
    exact h
  | true =>
    cases hout : env.frOutcome with
    | error e => rw [compareFacesFr_error env e hfr hout]; exact Or.inl ⟨e, rfl⟩
    | ok d =>
      rw [compareFacesFr_ok env d hfr hout]
      have h := compareFacesDf_shape env [("face_recognition", frScore d)] ["face_recognition"]
      rw [hfr] at h
      exact h

theorem compare_faces_noLibs (env : FaceEnv)
    (h : (env.frAvailable || env.dfAvailable) = false) :
    compare_faces env = (librariesUnavailableResult, []) := by
  unfold compare_faces; rw [h]; rfl

theorem compare_faces_download_error (env : FaceEnv) (e : String)
    (h1 : (env.frAvailable || env.dfAvailable) = true) (h2 : env.download = .error e) :
    compare_faces env = (faceExceptionResult e, []) := by
  unfold compare_faces; rw [h1, h2]; rfl

theorem compare_faces_download_ok (env : FaceEnv)
    (h1 : (env.frAvailable || env.dfAvailable) = true) (h2 : env.download = .ok ()) :
    compare_faces env = compareFacesFr env := by
  unfold compare_faces; rw [h1, h2]; rfl

/-- Every compare_faces result is an early libraries-unavailable result, an
except result, or a completed scored result with the availability-derived
degraded flag. -/
theorem compare_faces_shape (env : FaceEnv) :
    ((compare_faces env).1 = librariesUnavailableResult ∧
      (env.frAvailable || env.dfAvailable) = false)
    ∨ (∃ e, (compare_faces env).1 = faceExceptionResult e)
    ∨ ((compare_faces env).1.error = none ∧
       (compare_faces env).1.degraded = some (!env.frAvailable || !env.dfAvailable) ∧
       meanScoredResult (compare_faces env)) := by
  cases hb : (env.frAvailable || env.dfAvailable) with
  | false => rw [compare_faces_noLibs env hb]; exact Or.inl ⟨rfl, rfl⟩
  | true =>
    cases hdl : env.download with
    | error e => rw [compare_faces_download_error env e hb hdl]; exact Or.inr (Or.inl ⟨e, rfl⟩)
    | ok u => rw [compare_faces_download_ok env hb (by cases u; exact hdl)]
              exact Or.inr (compareFacesFr_shape env)

/-- Comparator-pool environment producing two scores 0.9 and 0.6 (the
face_recognition method at distance 0.1, DeepFace unavailable, Rekognition
similarity 60). -/
def envTwoScores : FaceEnv :=
  { frAvailable := true, dfAvailable := false, download := .ok (),
    frOutcome := .ok (some (1/10)), dfOutcome := .ok none,
    awsOutcome := .ok (some 60) }

/-- Comparator-pool environment in which every obtained score is 0.9 while
DeepFace is unavailable. -/
def envDegradedHigh : FaceEnv :=
  { frAvailable := true, dfAvailable := false, download := .ok (),
    frOutcome := .ok (some (1/10)), dfOutcome := .ok none,
    awsOutcome := .ok (some 90) }

theorem frScore_point_nine : frScore (some (1/10)) = 9/10 := by
  have h1 : (1:ℚ) - 1/10 = 9/10 := by norm_num
  rw [frScore, h1, max_eq_right (by norm_num : (0:ℚ) ≤ 9/10)]

theorem compare_faces_envTwoScores :
    compare_faces envTwoScores =
      ({ score := 3/4, is_match := true, threshold := some (3/4),
         methods_scores := some [("face_recognition", 9/10), ("aws_rekognition", 3/5)],
         confidence := some "medium", degraded := some true },
       ["face_recognition", "aws_rekognition"]) := by
  have hr : round3 (3/4) = 3/4 := round3_self _ 750 (by norm_num)
  have hne : ([(9:ℚ)/10, 3/5] = []) = False := by simp
  norm_num [compare_faces, compareFacesFr, compareFacesDf, compareFacesAws, envTwoScores,
    frScore_point_nine, awsScore, meanQ, hr, hne]

theorem compare_faces_envDegradedHigh :
    compare_faces envDegradedHigh =
      ({ score := 9/10, is_match := true, threshold := some (3/4),
         methods_scores := some [("face_recognition", 9/10), ("aws_rekognition", 9/10)],
         confidence := some "high", degraded := some true },
       ["face_recognition", "aws_rekognition"]) := by
  have hr : round3 (9/10) = 9/10 := round3_self _ 900 (by norm_num)
  have hne : ([(9:ℚ)/10, 9/10] = []) = False := by simp
  norm_num [compare_faces, compareFacesFr, compareFacesDf, compareFacesAws, envDegradedHigh,
    frScore_point_nine, awsScore, meanQ, hr, hne]

/-- Claim C5.  Every pool invocation that completes without error yields the
unweighted arithmetic mean of the obtained per-method scores (reported to 3
decimals) with isMatch exactly when the mean reaches the 0.75 threshold; in
particular scores [0.9, 0.6] average to exactly 0.75 (a match), a degraded
run whose obtained scores are all 0.9 aggregates to 0.9 with degraded true,
and the aggregation map sends the singleton score list [0.9] to 0.9. -/
theorem biometric_mean_aggregation :
    (∀ env : FaceEnv, (compare_faces env).1.error = none →
      meanScoredResult (compare_faces env))
    ∧ (compare_faces envTwoScores).1.score = 3/4
    ∧ (compare_faces envTwoScores).1.is_match = true
    ∧ meanQ [9/10, 3/5] = 3/4
    ∧ (compare_faces envDegradedHigh).1.score = 9/10
    ∧ (compare_faces envDegradedHigh).1.degraded = some true
    ∧ meanQ [9/10] = 9/10 := by
  refine ⟨?_, ?_, ?_, ?_, ?_, ?_, ?_⟩
  · intro env h
    rcases compare_faces_shape env with ⟨h1, _⟩ | ⟨e, h1⟩ | ⟨_, _, h3⟩
    · rw [h1] at h; simp [librariesUnavailableResult] at h
    · rw [h1] at h; simp [faceExceptionResult] at h
    · exact h3
  · rw [compare_faces_envTwoScores]
  · rw [compare_faces_envTwoScores]
  · simp [meanQ]; norm_num
  · rw [compare_faces_envDegradedHigh]
  · rw [compare_faces_envDegradedHigh]
  · simp [meanQ]

/-- Concrete instantiation of the aggregation theorem at the [0.9, 0.6]
environment, whose run completes without error. -/
theorem biometric_mean_aggregation_witness :
    meanScoredResult (compare_faces envTwoScores) :=
  biometric_mean_aggregation.1 envTwoScores
    (by rw [compare_faces_envTwoScores])

/-- Comparator-pool environment in which the first method obtains score 0.9
and then the DeepFace method raises. -/
def envDfError : FaceEnv :=
  { frAvailable := true, dfAvailable := true, download := .ok (),
    frOutcome := .ok (some (1/10)), dfOutcome := .error "DeepFace verification timed out",
    awsOutcome := .ok (some 90) }

/-- Counterexample to claim C6.  The face_recognition method returns the
score 0.9 (frScore of distance 0.1), yet because the DeepFace method then
errors the pool does not return a normal scored result: it returns the
except result with aggregateScore 0, isMatch false, the raw error string, no
methods_scores and no degraded flag — the erroring method aborts the whole
pool instead of merely contributing no score. -/
theorem pool_not_resilient_cex :
    compare_faces envDfError =
      ({ score := 0, is_match := false, error := some "DeepFace verification timed out" },
       ["face_recognition", "deepface"])
    ∧ frScore (some (1/10)) = 9/10
    ∧ (compare_faces envDfError).1.methods_scores = none
    ∧ (compare_faces envDfError).1.degraded = none := by
  refine ⟨rfl, frScore_point_nine, rfl, rfl⟩

/-- Amended claim C6.  Any pool invocation that ends with an error flag —
a method that errored, or both optional libraries missing — returns
aggregateScore 0 and isMatch false (a hard no-match, not a neutral value);
when both optional libraries are unavailable the pool returns the explicit
libraries-unavailable error result without invoking any method; and an
invocation that completes without error returns a scored result whose
degraded flag records exactly the unavailability of an optional library. -/
theorem pool_error_semantics :
    (∀ env : FaceEnv, (compare_faces env).1.error ≠ none →
      (compare_faces env).1.score = 0 ∧ (compare_faces env).1.is_match = false)
    ∧ (∀ env : FaceEnv, (env.frAvailable || env.dfAvailable) = false →
        compare_faces env = (librariesUnavailableResult, []))
    ∧ (∀ env : FaceEnv, (compare_faces env).1.error = none →
        (compare_faces env).1.degraded = some (!env.frAvailable || !env.dfAvailable)) := by
  refine ⟨?_, ?_, ?_⟩
  · intro env h
    rcases compare_faces_shape env with ⟨h1, _⟩ | ⟨e, h1⟩ | ⟨h1, _, _⟩
    · rw [h1]; exact ⟨rfl, rfl⟩
    · rw [h1]; exact ⟨rfl, rfl⟩
    · exact absurd h1 h
  · intro env h
    exact compare_faces_noLibs env h
  · intro env h
    rcases compare_faces_shape env with ⟨h1, _⟩ | ⟨e, h1⟩ | ⟨_, h2, _⟩
    · rw [h1] at h; simp [librariesUnavailableResult] at h
    · rw [h1] at h; simp [faceExceptionResult] at h
    · exact h2

/-- Concrete instantiation of the pool-error-semantics theorem at the
DeepFace-error environment. -/
theorem pool_error_semantics_witness :
    (compare_faces envDfError).1.score = 0 ∧
    (compare_faces envDfError).1.is_match = false :=
  pool_error_semantics.1 envDfError (by simp [envDfError, compare_faces,
    compareFacesFr, compareFacesDf, faceExceptionResult])

/-- Claim C10.  The analysis input built by the submit endpoint carries only
the three image URLs — its id_number key is absent — so the 0.4 penalty for
a missing or short ID number is a member of the triggered risk factors of
every submission, whatever id_number string the user submitted and whatever
the other component results are. -/
theorem analysis_input_omits_id_number (req : KYCVerificationRequest) (doc : DocResult)
    (face : FaceResult) (live : LivenessResult) :
    (submitAnalysisData req).id_number = none ∧
    (2:ℚ)/5 ∈ risk_factors doc face live (submitAnalysisData req) := by
  refine ⟨rfl, ?_⟩
  have hc : (submitAnalysisData req).id_number.getD "" = "" := rfl
  unfold risk_factors
  rw [if_pos (Or.inl hc)]
  simp

theorem approvedInv_newKycRecord (rid vendorId : ℕ) :
    approvedInv (newKycRecord rid vendorId) :=
  fun hab => absurd hab (by decide : ¬("pending" = "approved"))

theorem approvedInv_uploadUrlUpdate (rec : KycRecord) (dt url : String) :
    approvedInv (uploadUrlUpdate rec dt url) ↔ approvedInv rec := by
  unfold uploadUrlUpdate
  repeat' split
  all_goals exact Iff.rfl

theorem approvedInv_ocrUpdate (rec : KycRecord) (e : Option ExtractedData) :
    approvedInv { rec with ocr_extracted_data := e } ↔ approvedInv rec :=
  Iff.rfl

theorem putRecord_inv (S : DBState) (uid : ℕ) (b : Bool) (r : KycRecord)
    (h : StateInv S) (hr : approvedInv r) : StateInv (putRecord S uid b r) := by
  unfold putRecord
  cases b with
  | true =>
    intro x hx
    rcases List.mem_map.mp hx with ⟨y, hy, hxy⟩
    by_cases hc : (y.vendor_id == uid) = true
    · rw [if_pos hc] at hxy
      exact hxy ▸ hr
    · rw [if_neg hc] at hxy
      exact hxy ▸ h y hy
  | false =>
    intro x hx
    rcases List.mem_append.mp hx with h1 | h1
    · exact h x h1
    · rw [List.mem_singleton] at h1
      exact h1 ▸ hr

theorem uploadProcess_inv (S : DBState) (uid : ℕ) (dt url : String) (env : UploadEnv)
    (h : StateInv S) : StateInv ((uploadProcess S uid dt url env).1) := by
  unfold uploadProcess
  apply putRecord_inv _ _ _ _ h
  have hrec0 : approvedInv (match findKyc S uid with
      | some r => r
      | none => newKycRecord (freshId S) uid) := by
    cases hf : findKyc S uid with
    | some r => exact h r (List.mem_of_find?_eq_some hf)
    | none => exact approvedInv_newKycRecord _ _
  by_cases hext : (if dt == "front" then env.extractOutcome else none).isSome = true
  · rw [if_pos hext]
    exact (approvedInv_ocrUpdate _ _).mpr ((approvedInv_uploadUrlUpdate _ _ _).mpr hrec0)
  · rw [if_neg hext]
    exact (approvedInv_uploadUrlUpdate _ _ _).mpr hrec0

theorem upload_document_inv (S : DBState) (uid : ℕ) (ct dt : String) (env : UploadEnv)
    (h : StateInv S) : StateInv ((upload_document S uid ct dt env).1) := by
  unfold upload_document
  repeat' split
  all_goals first
    | exact h
    | exact uploadProcess_inv _ _ _ _ _ h

theorem approvedInv_rejected (rec : KycRecord) (reason : Option String) :
    approvedInv { rec with status := "rejected", rejection_reason := reason } :=
  fun hab => absurd hab (by decide : ¬("rejected" = "approved"))

theorem submitProcess_inv (S : DBState) (uid : ℕ) (req : KYCVerificationRequest)
    (env : KycEnv) (h : StateInv S) : StateInv ((submitProcess S uid req env).1) := by
  simp only [submitProcess]
  split
  · exact h
  · exact putRecord_inv _ _ _ _ h (approvedInv_rejected _ _)

theorem submit_kyc_inv (S : DBState) (uid : ℕ) (req : KYCVerificationRequest)
    (env : KycEnv) (h : StateInv S) : StateInv ((submit_kyc S uid req env).1) := by
  unfold submit_kyc
  repeat' split
  all_goals first
    | exact h
    | exact submitProcess_inv _ _ _ _ h

theorem step_inv (S : DBState) (op : Op) (h : StateInv S) : StateInv (step S op) := by
  cases op with
  | upload uid ct dt env => exact upload_document_inv S uid ct dt env h
  | submit uid req env => exact submit_kyc_inv S uid req env h

/-- Claim C2.  The approval invariant — every row in status approved has
faceMatchStatus verified, a valid document, a live selfie and riskScore at
most 0.5 — is preserved by every operation of the pipeline: any state whose
approved rows satisfy it still satisfies it after any sequence of
upload_document and submit_kyc operations, so it holds of every reachable
record. -/
theorem approved_records_invariant (S : DBState) (ops : List Op) (h : StateInv S) :
    StateInv (runOps S ops) := by
  induction ops generalizing S with
  | nil => exact h
  | cons op rest ih => exact ih (step S op) (step_inv S op h)

/-- A vendor account (account Y of the duplicate scenario). -/
def userY : UserRec :=
  { id := 2, email := "y@example.com", first_name := "Yaw", role := "vendor" }

/-- A vendor account whose trial has been granted (in-memory expiry 100). -/
def userXp : UserRec :=
  { id := 1, email := "x@example.com", first_name := "Akua", role := "vendor",
    kyc_verified := some true, subscription_plan := some "premium_trial",
    subscription_expires_at := some 100 }

/-- A fresh vendor_kyc row for account Y (column defaults, status pending). -/
def pendingRecY : KycRecord := { id := 2, vendor_id := 2 }

/-- An approved vendor_kyc row of account X bearing idNumber
GHA-123456789-0 and satisfying the approval invariant. -/
def approvedRecX : KycRecord :=
  { id := 1, vendor_id := 1, id_type := some "ghana_card",
    id_number := some "GHA-123456789-0",
    id_front_url := some "https://img/front-x", selfie_url := some "https://img/selfie-x",
    face_match_score := some (9/10), face_match_status := some "verified",
    document_verification_status := some "verified",
    is_document_valid := some true, is_live_selfie := some true,
    risk_score := some (2/5), status := "approved" }

/-- A verification request from account Y reusing the idNumber of account
X's approved record. -/
def reqY : KYCVerificationRequest :=
  { id_type := "ghana_card", id_number := "GHA-123456789-0", full_name := "Yaw Mensah",
    date_of_birth := "1990-01-01", id_front_url := "https://img/front-y",
    selfie_url := "https://img/selfie-y" }

/-- Provider environment in which every biometric comparator is unavailable
(the pool hard-failure case) while document and liveness checks pass. -/
def envNoBio : KycEnv :=
  { detectText := .ok [{ dtype := "LINE", confidence := 90 }],
    face :=
      { frAvailable := false, dfAvailable := false, download := .ok (),
        frOutcome := .ok none, dfOutcome := .ok none, awsOutcome := .ok none },
    cv2Available := true,
    liveOutcome := .ok { facesCount := 1, firstFaceWidth := 150, blur := 200, brightness := 100 } }

/-- An S3 environment for a successful document upload with OCR data. -/
def uploadEnvOk : UploadEnv :=
  { uploadOutcome := .ok "https://img/front-new",
    extractOutcome := some { raw_text := "REPUBLIC OF GHANA", id_number := some "GHA-987654321-1",
                             full_name := some "Yaw Mensah", confidence := 1 } }

/-- Concrete instantiation of the invariant theorem: a pending-only state
satisfies the invariant, and still does after a submission and a document
upload. -/
theorem approved_records_invariant_witness :
    StateInv { users := [userY], kycs := [pendingRecY], audits := [] } ∧
    StateInv (runOps { users := [userY], kycs := [pendingRecY], audits := [] }
      [Op.submit 2 reqY envNoBio, Op.upload 2 "image/jpeg" "front" uploadEnvOk]) :=
  ⟨by decide, approved_records_invariant _ _ (by decide)⟩

/-- Claim C8.  Re-running the verification decision for a record that is
already Approved is a no-op: the submit endpoint refuses it before touching
anything, so the whole persisted state — in particular the owning account's
subscription expiry — is exactly as it was after the first approval. -/
theorem promotional_grant_idempotent (S : DBState) (uid : ℕ)
    (req : KYCVerificationRequest) (env : KycEnv) (u : UserRec) (ex : KycRecord) (t : ℚ)
    (hu : findUser S uid = some u) (hexp : u.subscription_expires_at = some t)
    (hex : findActiveKyc S uid = some ex) (_hst : ex.status = "approved") :
    (submit_kyc S uid req env).1 = S ∧
    (findUser (submit_kyc S uid req env).1 uid).map (fun v => v.subscription_expires_at) =
      some (some t) := by
  have hS : (submit_kyc S uid req env).1 = S := by
    unfold submit_kyc
    repeat' split
    all_goals first | rfl | simp_all
  refine ⟨hS, ?_⟩
  rw [hS, hu]
  simp [hexp]

/-- Concrete instantiation of the idempotent-grant theorem: account X is
already approved with expiry 100, and a repeated submission changes
nothing. -/
theorem promotional_grant_idempotent_witness :
    (submit_kyc { users := [userXp], kycs := [approvedRecX], audits := [] } 1 reqY envPass).1
      = { users := [userXp], kycs := [approvedRecX], audits := [] } ∧
    (findUser (submit_kyc { users := [userXp], kycs := [approvedRecX], audits := [] }
        1 reqY envPass).1 1).map (fun v => v.subscription_expires_at) = some (some 100) :=
  promotional_grant_idempotent _ 1 reqY envPass userXp approvedRecX 100 rfl rfl rfl rfl

theorem submit_kyc_process_eq (S : DBState) (uid : ℕ) (req : KYCVerificationRequest)
    (env : KycEnv) (u : UserRec) (hu : findUser S uid = some u)
    (ha : u.is_active = true) (hrole : u.role = "vendor")
    (hex : findActiveKyc S uid = none) :
    submit_kyc S uid req env = submitProcess S uid req env := by
  unfold submit_kyc
  rw [hu]
  simp [ha, hrole, hex]

theorem submitProcess_rejected (S : DBState) (uid : ℕ) (req : KYCVerificationRequest)
    (env : KycEnv)
    (happ : (perform_full_kyc_analysis env (submitAnalysisData req)).1.is_approved = false) :
    submitProcess S uid req env =
      (putRecord S uid (findKyc S uid).isSome
        { applyAnalysis
            (submitRecordUpdate
              (match findKyc S uid with
               | some r => r
               | none => newKycRecord (freshId S) uid) req)
            (perform_full_kyc_analysis env (submitAnalysisData req)).1 with
          status := "rejected",
          rejection_reason :=
            some ((perform_full_kyc_analysis env
              (submitAnalysisData req)).1.recommendations.getD "KYC verification failed") },
       .httpError 500
         "KYC submission failed: KYCVerificationRequest object has no attribute client",
       (perform_full_kyc_analysis env (submitAnalysisData req)).2) := by
  simp only [submitProcess]
  rw [if_neg (by simp [happ])]

theorem submitProcess_approved (S : DBState) (uid : ℕ) (req : KYCVerificationRequest)
    (env : KycEnv)
    (happ : (perform_full_kyc_analysis env (submitAnalysisData req)).1.is_approved = true) :
    submitProcess S uid req env =
      (S, .httpError 500 "KYC submission failed: name timedelta is not defined",
       (perform_full_kyc_analysis env (submitAnalysisData req)).2) := by
  simp only [submitProcess]
  rw [if_pos happ]

/-- State holding only vendor account Y and its fresh pending record. -/
def stateY : DBState := { users := [userY], kycs := [pendingRecY], audits := [] }

/-- Counterexample to claim C7.  With every biometric comparator unavailable
the pool reports its hard failure (error flag, aggregateScore 0, no match),
and the submission is then transitioned to Rejected and persisted — the
record does not remain in Processing. -/
theorem pool_hard_failure_rejects_cex :
    (compare_faces envNoBio.face).1.error =
      some "Face comparison libraries are not available in this deployment" ∧
    (compare_faces envNoBio.face).1.score = 0 ∧
    (compare_faces envNoBio.face).1.is_match = false ∧
    ((submit_kyc stateY 2 reqY envNoBio).1.kycs.map (fun r => r.status)) = ["rejected"] := by
  have happ : (perform_full_kyc_analysis envNoBio (submitAnalysisData reqY)).1.is_approved
      = false := by
    unfold perform_full_kyc_analysis
    rw [show envNoBio.analysisCrash = none from rfl]
    dsimp only
    rw [compare_faces_noLibs envNoBio.face rfl]
    simp [librariesUnavailableResult]
  refine ⟨rfl, rfl, rfl, ?_⟩
  rw [submit_kyc_process_eq stateY 2 reqY envNoBio userY rfl rfl rfl rfl,
    submitProcess_rejected _ _ _ _ happ]
  rfl

/-- Amended claim C7.  When all biometric comparator methods are unavailable
(the pool hard-failure case), an accepted submission does not remain in
Processing: the analysis cannot approve, so the record is transitioned to
Rejected (with the analysis recommendations as reason) and this rejection is
persisted by the first commit. -/
theorem pool_hard_failure_rejects (S : DBState) (uid : ℕ) (req : KYCVerificationRequest)
    (env : KycEnv) (u : UserRec)
    (hu : findUser S uid = some u) (ha : u.is_active = true) (hrole : u.role = "vendor")
    (hex : findActiveKyc S uid = none) (hcrash : env.analysisCrash = none)
    (hfail : (env.face.frAvailable || env.face.dfAvailable) = false) :
    ∃ rec3 : KycRecord,
      (submit_kyc S uid req env).1 = putRecord S uid (findKyc S uid).isSome rec3 ∧
      rec3.status = "rejected" := by
  have happ : (perform_full_kyc_analysis env (submitAnalysisData req)).1.is_approved
      = false := by
    unfold perform_full_kyc_analysis
    rw [hcrash]
    dsimp only
    rw [compare_faces_noLibs env.face hfail]
    simp [librariesUnavailableResult]
  rw [submit_kyc_process_eq S uid req env u hu ha hrole hex,
    submitProcess_rejected _ _ _ _ happ]
  exact ⟨_, rfl, rfl⟩

/-- Concrete instantiation of the amended C7 theorem on the no-biometrics
environment. -/
theorem pool_hard_failure_rejects_witness :
    ∃ rec3 : KycRecord,
      (submit_kyc stateY 2 reqY envNoBio).1 = putRecord stateY 2 (findKyc stateY 2).isSome rec3 ∧
      rec3.status = "rejected" :=
  pool_hard_failure_rejects stateY 2 reqY envNoBio userY rfl rfl rfl rfl rfl rfl

/-- State holding vendor account X and its approved record. -/
def stateX : DBState := { users := [userXp], kycs := [approvedRecX], audits := [] }

/-- Counterexample to claim C9.  Account X's record is Approved with front
URL https://img/front-x, yet a subsequent front-document upload by X
overwrites both the stored front URL and the OCR-extracted data (the status
stays approved).  Approved records are therefore not immutable under
document uploads. -/
theorem approved_not_immutable_cex :
    approvedRecX.status = "approved" ∧
    approvedRecX.id_front_url = some "https://img/front-x" ∧
    approvedRecX.ocr_extracted_data = none ∧
    ((upload_document stateX 1 "image/jpeg" "front" uploadEnvOk).1.kycs.map
      (fun r => r.id_front_url)) = [some "https://img/front-new"] ∧
    ((upload_document stateX 1 "image/jpeg" "front" uploadEnvOk).1.kycs.map
      (fun r => r.ocr_extracted_data)) = [uploadEnvOk.extractOutcome] ∧
    ((upload_document stateX 1 "image/jpeg" "front" uploadEnvOk).1.kycs.map
      (fun r => r.status)) = ["approved"] :=
  ⟨rfl, rfl, rfl, rfl, rfl, rfl⟩

/-- The fields of a vendor_kyc row that upload_document never writes: the
lifecycle status, every verification-result field, the rejection reason and
the reviewer attribution. -/
def verificationView (r : KycRecord) :=
  (r.status, r.face_match_score, r.face_match_status, r.document_verification_status,
   r.is_document_valid, r.is_live_selfie, r.risk_score, r.ai_analysis,
   r.rejection_reason, r.reviewed_by, r.reviewed_at)

theorem verificationView_uploadUrlUpdate (rec : KycRecord) (dt url : String) :
    verificationView (uploadUrlUpdate rec dt url) = verificationView rec := by
  unfold uploadUrlUpdate
  repeat' split
  all_goals rfl

theorem uploadProcess_frame (S : DBState) (uid : ℕ) (dt url : String) (env : UploadEnv) :
    ∀ r ∈ (uploadProcess S uid dt url env).1.kycs,
      (∃ r0 ∈ S.kycs, verificationView r = verificationView r0)
      ∨ verificationView r = verificationView (newKycRecord (freshId S) uid) := by
  intro r hr
  have hview : ∀ rec0 : KycRecord,
      verificationView (if (if dt == "front" then env.extractOutcome else none).isSome
        then { uploadUrlUpdate rec0 dt url with
               ocr_extracted_data := (if dt == "front" then env.extractOutcome else none) }
        else uploadUrlUpdate rec0 dt url) = verificationView rec0 := by
    intro rec0
    by_cases hext : (if dt == "front" then env.extractOutcome else none).isSome = true
    · rw [if_pos hext]
      exact verificationView_uploadUrlUpdate rec0 dt url
    · rw [if_neg hext]
      exact verificationView_uploadUrlUpdate rec0 dt url
  cases hf : findKyc S uid with
  | some r0 =>
    simp only [uploadProcess, hf, Option.isSome_some, putRecord, if_pos] at hr
    rcases List.mem_map.mp hr with ⟨y, hy, hxy⟩
    by_cases hc : (y.vendor_id == uid) = true
    · rw [if_pos hc] at hxy
      exact Or.inl ⟨r0, List.mem_of_find?_eq_some hf, hxy ▸ hview r0⟩
    · rw [if_neg hc] at hxy
      exact Or.inl ⟨y, hy, hxy ▸ rfl⟩
  | none =>
    simp only [uploadProcess, hf, Option.isSome_none, putRecord, Bool.false_eq_true,
      if_false, ite_false] at hr
    rcases List.mem_append.mp hr with h1 | h1
    · exact Or.inl ⟨r, h1, rfl⟩
    · rw [List.mem_singleton] at h1
      exact Or.inr (h1 ▸ hview (newKycRecord (freshId S) uid))

/-- Amended claim C9.  Approved records are not immutable: upload_document
overwrites the addressed document URL (and, for the front image, the
OCR-extracted data) whatever the record's status — but it never changes the
status, any verification-result field, the rejection reason or the reviewer
fields of any record: every row after an upload agrees on those fields with
a pre-existing row, or is a freshly inserted row with the column
defaults. -/
theorem upload_changes_only_documents (S : DBState) (uid : ℕ) (ct dt : String)
    (env : UploadEnv) :
    ∀ r ∈ (upload_document S uid ct dt env).1.kycs,
      (∃ r0 ∈ S.kycs, verificationView r = verificationView r0)
      ∨ verificationView r = verificationView (newKycRecord (freshId S) uid) := by
  unfold upload_document
  repeat' split
  all_goals first
    | (intro r hr; exact Or.inl ⟨r, hr, rfl⟩)
    | exact uploadProcess_frame _ _ _ _ _

/-- The record of account X after the counterexample's front upload. -/
def uploadedRecX : KycRecord :=
  { approvedRecX with
    id_front_url := some "https://img/front-new",
    ocr_extracted_data := uploadEnvOk.extractOutcome }

/-- Concrete instantiation of the upload frame theorem: the overwritten
record of the counterexample still agrees with the original approved record
on status and every verification field. -/
theorem upload_changes_only_documents_witness :
    (∃ r0 ∈ stateX.kycs, verificationView uploadedRecX = verificationView r0)
    ∨ verificationView uploadedRecX = verificationView (newKycRecord (freshId stateX) 1) :=
  upload_changes_only_documents stateX 1 "image/jpeg" "front" uploadEnvOk uploadedRecX
    (List.mem_singleton.mpr rfl)

theorem submit_kyc_no_user (S : DBState) (uid : ℕ) (req : KYCVerificationRequest)
    (env : KycEnv) (h : findUser S uid = none) :
    submit_kyc S uid req env = (S, .httpError 401 "User not found", []) := by
  unfold submit_kyc; rw [h]

theorem submit_kyc_inactive (S : DBState) (uid : ℕ) (req : KYCVerificationRequest)
    (env : KycEnv) (u : UserRec) (hu : findUser S uid = some u)
    (ha : u.is_active = false) :
    submit_kyc S uid req env = (S, .httpError 401 "Account is deactivated", []) := by
  unfold submit_kyc; rw [hu]; simp [ha]

theorem submit_kyc_not_vendor (S : DBState) (uid : ℕ) (req : KYCVerificationRequest)
    (env : KycEnv) (u : UserRec) (hu : findUser S uid = some u)
    (ha : u.is_active = true) (hrole : (u.role != "vendor") = true) :
    submit_kyc S uid req env =
      (S, .httpError 500 "KYC submission failed: Only vendors can submit KYC", []) := by
  unfold submit_kyc; rw [hu]; simp [ha, hrole]

theorem submit_kyc_already_approved (S : DBState) (uid : ℕ)
    (req : KYCVerificationRequest) (env : KycEnv) (u : UserRec) (ex : KycRecord)
    (hu : findUser S uid = some u) (ha : u.is_active = true)
    (hrole : (u.role != "vendor") = false) (hex : findActiveKyc S uid = some ex)
    (hst : (ex.status == "approved") = true) :
    submit_kyc S uid req env =
      (S, .httpError 500 "KYC submission failed: KYC already approved", []) := by
  unfold submit_kyc; rw [hu]; simp [ha, hrole, hex, hst]

theorem submit_kyc_already_processing (S : DBState) (uid : ℕ)
    (req : KYCVerificationRequest) (env : KycEnv) (u : UserRec) (ex : KycRecord)
    (hu : findUser S uid = some u) (ha : u.is_active = true)
    (hrole : (u.role != "vendor") = false) (hex : findActiveKyc S uid = some ex)
    (hst : (ex.status == "approved") = false) :
    submit_kyc S uid req env =
      (S, .httpError 500 "KYC submission failed: KYC is already being processed", []) := by
  unfold submit_kyc; rw [hu]; simp [ha, hrole, hex, hst]

/-- Provider environment for a full analysis run in which every signal
fails: no text detected, face distance 1 (score 0, DeepFace unavailable), no
Rekognition face match, and no face in the selfie. -/
def envFail : KycEnv :=
  { detectText := .ok [],
    face :=
      { frAvailable := true, dfAvailable := false, download := .ok (),
        frOutcome := .ok (some 1), dfOutcome := .ok none, awsOutcome := .ok none },
    cv2Available := true,
    liveOutcome := .ok { facesCount := 0, firstFaceWidth := 0, blur := 0, brightness := 0 } }

/-- State holding account X (approved record with idNumber GHA-123456789-0)
and account Y (pending record). -/
def stateXY : DBState :=
  { users := [userXp, userY], kycs := [approvedRecX, pendingRecY], audits := [] }

/-- Counterexample to claim C1.  Account X already owns an Approved record
with idNumber GHA-123456789-0, yet account Y's submission of the very same
idNumber is not rejected with DuplicateIdentity and not rejected before the
biometric calls: the pipeline invokes both available biometric comparators
(call count 2, not 0) and then persists an ordinary analysis-driven
rejection, X's record staying approved — no duplicate-identity check exists
anywhere on the path. -/
theorem no_duplicate_guard_cex :
    approvedRecX.id_number = some reqY.id_number ∧
    approvedRecX.status = "approved" ∧
    approvedRecX.vendor_id ≠ 2 ∧
    (submit_kyc stateXY 2 reqY envFail).2.2 = ["face_recognition", "aws_rekognition"] ∧
    ((submit_kyc stateXY 2 reqY envFail).1.kycs.map (fun r => (r.vendor_id, r.status)))
      = [(1, "approved"), (2, "rejected")] :=
  ⟨rfl, rfl, by decide, rfl, rfl⟩

/-- Amended claim C1.  The submit endpoint performs no duplicate-identity
check at all: records belonging to other accounts — in particular an
Approved record carrying the very idNumber being submitted — are invisible
to it.  Handling a submission in a state extended with any other account's
record yields exactly the same response, the same biometric call trace and
the same state change, with the extra record untouched; the outcome is
decided solely by the analysis of the submitted images. -/
theorem submit_ignores_other_records (us : List UserRec) (ks : List KycRecord)
    (au : List AuditEntry) (r : KycRecord) (uid : ℕ) (req : KYCVerificationRequest)
    (env : KycEnv) (hvid : (r.vendor_id == uid) = false)
    (hown : (ks.find? (fun x => x.vendor_id == uid)).isSome = true) :
    submit_kyc ⟨us, r :: ks, au⟩ uid req env =
      (⟨us, r :: (submit_kyc ⟨us, ks, au⟩ uid req env).1.kycs, au⟩,
       (submit_kyc ⟨us, ks, au⟩ uid req env).2) := by
  have hfa : findActiveKyc ⟨us, r :: ks, au⟩ uid = findActiveKyc ⟨us, ks, au⟩ uid := by
    unfold findActiveKyc
    exact List.find?_cons_of_neg _ (by simp [hvid])
  have hfk : findKyc ⟨us, r :: ks, au⟩ uid = findKyc ⟨us, ks, au⟩ uid := by
    unfold findKyc
    exact List.find?_cons_of_neg _ (by simp [hvid])
  cases hu : findUser ⟨us, ks, au⟩ uid with
  | none =>
    have hu2 : findUser ⟨us, r :: ks, au⟩ uid = none := hu
    rw [submit_kyc_no_user _ _ _ _ hu2, submit_kyc_no_user _ _ _ _ hu]
  | some u =>
    have hu2 : findUser ⟨us, r :: ks, au⟩ uid = some u := hu
    cases ha : u.is_active with
    | false =>
      rw [submit_kyc_inactive _ _ _ _ u hu2 ha, submit_kyc_inactive _ _ _ _ u hu ha]
    | true =>
      cases hrole : (u.role != "vendor") with
      | true =>
        rw [submit_kyc_not_vendor _ _ _ _ u hu2 ha hrole,
          submit_kyc_not_vendor _ _ _ _ u hu ha hrole]
      | false =>
        cases hex : findActiveKyc ⟨us, ks, au⟩ uid with
        | some ex =>
          have hex2 : findActiveKyc ⟨us, r :: ks, au⟩ uid = some ex := by rw [hfa]; exact hex
          cases hst : (ex.status == "approved") with
          | true =>
            rw [submit_kyc_already_approved _ _ _ _ u ex hu2 ha hrole hex2 hst,
              submit_kyc_already_approved _ _ _ _ u ex hu ha hrole hex hst]
          | false =>
            rw [submit_kyc_already_processing _ _ _ _ u ex hu2 ha hrole hex2 hst,
              submit_kyc_already_processing _ _ _ _ u ex hu ha hrole hex hst]
        | none =>
          have hex2 : findActiveKyc ⟨us, r :: ks, au⟩ uid = none := by rw [hfa]; exact hex
          have hrole2 : u.role = "vendor" := by
            rcases hr : u.role == "vendor" with _ | _
            · rw [bne, hr] at hrole; exact absurd hrole (by decide)
            · exact eq_of_beq hr
          rw [submit_kyc_process_eq ⟨us, r :: ks, au⟩ uid req env u hu2 ha hrole2 hex2,
            submit_kyc_process_eq ⟨us, ks, au⟩ uid req env u hu ha hrole2 hex]
          obtain ⟨r0, hr0⟩ := Option.isSome_iff_exists.mp hown
          have hfk1 : findKyc ⟨us, ks, au⟩ uid = some r0 := hr0
          have hfk2 : findKyc ⟨us, r :: ks, au⟩ uid = some r0 := by rw [hfk]; exact hr0
          cases happ : (perform_full_kyc_analysis env (submitAnalysisData req)).1.is_approved with
          | true =>
            rw [submitProcess_approved _ _ _ _ happ, submitProcess_approved _ _ _ _ happ]
          | false =>
            rw [submitProcess_rejected _ _ _ _ happ, submitProcess_rejected _ _ _ _ happ,
              hfk1, hfk2]
            simp only [putRecord, Option.isSome_some, if_pos, List.map_cons,
              Prod.mk.injEq, DBState.mk.injEq]
            simp [hvid]

/-- Concrete instantiation of the no-duplicate-guard theorem: removing
account X's approved duplicate-idNumber record from the counterexample
state changes nothing about the handling of Y's submission. -/
theorem submit_ignores_other_records_witness :
    submit_kyc stateXY 2 reqY envFail =
      (⟨[userXp, userY],
        approvedRecX ::
          (submit_kyc ⟨[userXp, userY], [pendingRecY], []⟩ 2 reqY envFail).1.kycs, []⟩,
       (submit_kyc ⟨[userXp, userY], [pendingRecY], []⟩ 2 reqY envFail).2) :=
  submit_ignores_other_records [userXp, userY] [pendingRecY] [] approvedRecX 2 reqY envFail
    rfl rfl

end SalonConnect
